import Mathlib

/-!
Shallow embedding of the FarmFit GrowthQuest monitoring and secure-storage
modules (`src/monitoring/real_time_monitor.py`, `src/data_management/secure_storage.py`),
together with proofs settling the frozen claims about them.

Conventions of the embedding:
* Python `datetime` values are modelled by `Datetime`: an epoch-seconds
  integer used for arithmetic and comparisons, together with the date and
  time component strings used by the two textual renderings
  (`str(dt)` = `date ++ " " ++ time`, `dt.isoformat()` = `date ++ "T" ++ time`;
  in CPython these differ exactly in the separator character).  The modelled
  operations each use only one facet of a `Datetime`, so no coherence
  between the facets is assumed or needed.
* Python floats are modelled by `ℚ`; `str(float)` is modelled by the fixed
  rendering `pyFloatStr`, applied everywhere the source applies `str`/f-strings
  to the value.  The exact digit string is irrelevant to every claim; only
  that equal values render equally.
* `hmac.new(key, msg, sha256).hexdigest()` is modelled by an explicit
  function parameter `hm : String → String → String`; `hmac.compare_digest`
  is string equality.  Counterexamples instantiate `hm` with the concrete
  collision-free function `hmDemo`.
* Fernet encryption is modelled by `Ciphertext`: an authenticated token
  carrying the key it was made with and the plaintext; decrypting with the
  wrong key, or decrypting a corrupted blob, fails (`InvalidToken`), as
  authenticated encryption of Fernet does.
* Exceptions are modelled with `Except PyErr`; a Python `except` clause that
  logs and returns a default is modelled by matching on the error and
  returning that default.
-/

namespace FarmFit

/-- Python exception outcomes relevant to the modelled code paths. -/
inductive PyErr where
  | keyError
  | attributeError
  | invalidToken
  deriving DecidableEq, Repr

/-- Model of a Python `datetime`: epoch seconds for arithmetic/order, plus the
date and time component strings for the two textual renderings. -/
structure Datetime where
  date : String
  time : String
  epochSecs : ℤ
  deriving DecidableEq, Repr

/-- Rendering `str(dt)` and f-string interpolation of a datetime: date and time joined by a
space (`datetime.__str__` is isoformat with a space separator). -/
def Datetime.pyStr (dt : Datetime) : String :=
  dt.date ++ " " ++ dt.time

/-- Rendering `dt.isoformat()`: date and time joined by `"T"`. -/
def Datetime.isoStr (dt : Datetime) : String :=
  dt.date ++ "T" ++ dt.time

/-- Model of Python `str(float)`: a fixed injective-on-values rendering of the
rational modelling the float.  The modelled code only ever compares renderings
of values rendered by this same function, so the precise digits are
irrelevant; what matters is that the same value always renders the same. -/
def pyFloatStr (q : ℚ) : String :=
  (if q.num < 0 then "-" else "") ++ Nat.repr q.num.natAbs ++
    (if q.den = 1 then "" else "/" ++ Nat.repr q.den)

/-- A concrete collision-free stand-in for `hmac.new(key, msg, sha256).hexdigest()`
used to evaluate counterexamples: it is injective in the message for a fixed
key, which is the idealisation of HMAC-SHA256 collision resistance. -/
def hmDemo (key msg : String) : String :=
  key ++ "#" ++ msg

/-! ## `src/monitoring/real_time_monitor.py` -/

/-- The `SensorReading` dataclass (real_time_monitor.py lines 23-33). -/
structure SensorReading where
  timestamp : Datetime
  value : ℚ
  unit : String
  sensor_id : String
  checksum : String
  confidence : ℚ
  calibration_date : Datetime
  is_validated : Bool := false
  deriving DecidableEq, Repr

/-- The message string of `SensorReading.validate`:
`f"{self.timestamp}{self.value}{self.unit}{self.sensor_id}"`. -/
def SensorReading.message (r : SensorReading) : String :=
  r.timestamp.pyStr ++ pyFloatStr r.value ++ r.unit ++ r.sensor_id

/-- Method `SensorReading.validate(secret_key)` (lines 35-44): recompute
`hmac.new(secret_key, data, sha256).hexdigest()` over the message, set
`self.is_validated` to `hmac.compare_digest(expected, self.checksum)` and
return it.  Parametric in the HMAC hex digest function `hm`. -/
def SensorReading.validate (hm : String → String → String) (secret_key : String)
    (r : SensorReading) : SensorReading × Bool :=
  let ok := hm secret_key r.message == r.checksum
  ({ r with is_validated := ok }, ok)

/-- Operation `collections.deque(maxlen=m).append(x)` on a deque currently holding `buf`:
drop from the left whatever exceeds the bound after appending on the right. -/
def dequeAppend (maxlen : Nat) (buf : List α) (x : α) : List α :=
  if buf.length + 1 ≤ maxlen then buf ++ [x]
  else (buf ++ [x]).drop (buf.length + 1 - maxlen)

/-- The `RealTimeBuffer` class (lines 46-71): a deque with `maxlen = max_size`
(default 1000), a cleanup interval in seconds (default 3600) and the wall
time of the last cleanup.  Wall-clock times are epoch seconds; the
`asyncio.Lock` serialises access and is not part of the sequential state. -/
structure RealTimeBuffer where
  buffer : List SensorReading
  maxlen : Nat := 1000
  cleanup_interval : ℤ := 3600
  last_cleanup : ℤ
  deriving DecidableEq, Repr

/-- Method `RealTimeBuffer._cleanup_if_needed` (lines 64-71).  The guard is
`(datetime.now() - self.last_cleanup).seconds > self.cleanup_interval`;
`timedelta.seconds` is the normalised seconds component, i.e. the total
seconds modulo 86400 (floor division), which is `Int.emod`, the `%` of Lean on integers.
When it fires: `last_cleanup` is set to now, and the deque is rebuilt (same
`maxlen`) keeping only readings with `r.timestamp > now - 7 days`.
The three `datetime.now()` calls in the source are modelled as one `now`. -/
def RealTimeBuffer.cleanupIfNeeded (now : ℤ) (b : RealTimeBuffer) : RealTimeBuffer :=
  if (now - b.last_cleanup) % 86400 > b.cleanup_interval then
    { b with
      last_cleanup := now,
      buffer := b.buffer.filter (fun r => now - 7 * 86400 < r.timestamp.epochSecs) }
  else b

/-- Method `RealTimeBuffer.add` (lines 53-56): append the reading to the deque, then
run `_cleanup_if_needed`. -/
def RealTimeBuffer.add (now : ℤ) (b : RealTimeBuffer) (r : SensorReading) : RealTimeBuffer :=
  RealTimeBuffer.cleanupIfNeeded now { b with buffer := dequeAppend b.maxlen b.buffer r }

/-- Method `RealTimeBuffer.get_recent(seconds)` (lines 58-61): readings with
`r.timestamp > now - seconds`. -/
def RealTimeBuffer.getRecent (now : ℤ) (b : RealTimeBuffer) (seconds : ℤ) :
    List SensorReading :=
  b.buffer.filter (fun r => now - seconds < r.timestamp.epochSecs)

/-- The `RealTimeMonitor.__init__` state (lines 74-82).  It assigns exactly
`encryption`, `secret_key`, `buffers`, `alert_callbacks`, `executor`,
`is_running` and `websocket`; the executor and callback list are irrelevant
to the modelled operations and elided.  No method of `RealTimeMonitor`
ever assigns `self.last_cleanup` or `self.start_time`. -/
structure MonitorState where
  encryption_key : String
  secret_key : String
  buffers : List (String × RealTimeBuffer)
  is_running : Bool := false
  websocket_open : Bool := false
  deriving DecidableEq, Repr

/-- Python dict indexing `self.buffers[sensor_id]`: `none` models `KeyError`. -/
def lookupBuffer (bs : List (String × RealTimeBuffer)) (sid : String) :
    Option RealTimeBuffer :=
  (bs.find? (fun p => p.1 == sid)).map Prod.snd

/-- A numeric value of the statistics dict: either an exact rational or the
square root of one (`np.std` returns the square root of the variance). -/
inductive PyNum where
  | rat (q : ℚ)
  | sqrtOf (q : ℚ)
  deriving DecidableEq, Repr

/-- Numpy `np.mean` over a nonempty list of rationals. -/
def npMean (l : List ℚ) : ℚ :=
  l.sum / l.length

/-- Population variance; `np.std` is its square root. -/
def npVar (l : List ℚ) : ℚ :=
  ((l.map (fun x => (x - npMean l) ^ 2)).sum) / l.length

/-- Numpy `np.min` over a nonempty list. -/
def npMin : List ℚ → ℚ
  | [] => 0
  | x :: xs => xs.foldl min x

/-- Numpy `np.max` over a nonempty list. -/
def npMax : List ℚ → ℚ
  | [] => 0
  | x :: xs => xs.foldl max x

/-- Insert into a sorted list (ascending). -/
def insertAsc (x : ℚ) : List ℚ → List ℚ
  | [] => [x]
  | y :: ys => if x ≤ y then x :: y :: ys else y :: insertAsc x ys

/-- Insertion sort, ascending. -/
def sortAsc (l : List ℚ) : List ℚ :=
  l.foldr insertAsc []

/-- Numpy `np.median`: middle element of the sorted values, or the mean of the two
middle elements for even length. -/
def npMedian (l : List ℚ) : ℚ :=
  let s := sortAsc l
  let n := s.length
  if n % 2 = 1 then s.getD (n / 2) 0
  else (s.getD (n / 2 - 1) 0 + s.getD (n / 2) 0) / 2

/-- Method `RealTimeMonitor.get_statistics(sensor_id, timeframe)` (lines 185-204):
`self.buffers[sensor_id]` raises `KeyError` when the sensor has no buffer;
otherwise pull `get_recent(timeframe)`, return `{}` when empty, else the
statistics dict. -/
def get_statistics (now : ℤ) (st : MonitorState) (sensor_id : String)
    (timeframe : ℤ) : Except PyErr (List (String × PyNum)) :=
  match lookupBuffer st.buffers sensor_id with
  | none => .error .keyError
  | some buf =>
    let readings := buf.getRecent now timeframe
    if readings.isEmpty then .ok []
    else
      let values := readings.map (·.value)
      .ok [("mean", .rat (npMean values)),
           ("std", .sqrtOf (npVar values)),
           ("min", .rat (npMin values)),
           ("max", .rat (npMax values)),
           ("median", .rat (npMedian values)),
           ("count", .rat values.length),
           ("confidence", .rat (npMean (readings.map (·.confidence))))]

/-- An IEEE-float-valued result: finite (exact rational), ±infinity or NaN. -/
inductive FVal where
  | fin (q : ℚ)
  | inf
  | ninf
  | nan
  deriving DecidableEq, Repr

/-- Float division `a / b` for finite `a`, `b`: `0/0` is NaN, `±x/0` is
`±inf`, as in numpy float arithmetic (which warns but does not raise). -/
def fdiv (a b : ℚ) : FVal :=
  if b ≠ 0 then .fin (a / b)
  else if a = 0 then .nan
  else if 0 < a then .inf
  else .ninf

/-- The float comparison `x < c` for a rational threshold `c`: false whenever
`x` is NaN or `+inf`, true for `-inf`. -/
def FVal.ltQ (x : FVal) (c : ℚ) : Bool :=
  match x with
  | .fin q => q < c
  | .inf => false
  | .ninf => true
  | .nan => false

/-- The dict returned by `get_trend_analysis`. -/
structure TrendDict where
  trend : String
  trend_strength : FVal
  slope : ℚ
  r_squared : FVal
  deriving DecidableEq, Repr

/-- The slope (`z[0]`) of `np.polyfit(times, values, 1)`: the least-squares
line slope `(n·Σtv − Σt·Σv) / (n·Σt² − (Σt)²)`.  In the degenerate case
(denominator zero, i.e. all sample times equal — here necessarily all `0`,
since times are offsets from the first reading) `lstsq` returns the
minimum-norm solution, whose slope coefficient is `0`. -/
def polyfitSlope (times values : List ℚ) : ℚ :=
  let n : ℚ := times.length
  let st := times.sum
  let sv := values.sum
  let stv := ((times.zip values).map (fun p => p.1 * p.2)).sum
  let stt := (times.map (fun t => t ^ 2)).sum
  let den := n * stt - st ^ 2
  if den = 0 then 0 else (n * stv - st * sv) / den

/-- Numpy `np.corrcoef(times, values)[0,1] ** 2`: the squared Pearson correlation
`cov² / (var_t · var_v)`, NaN when either variance is zero. -/
def corrSquared (times values : List ℚ) : FVal :=
  let n : ℚ := times.length
  let st := times.sum
  let sv := values.sum
  let stv := ((times.zip values).map (fun p => p.1 * p.2)).sum
  let stt := (times.map (fun t => t ^ 2)).sum
  let svv := (values.map (fun v => v ^ 2)).sum
  let den := (n * stt - st ^ 2) * (n * svv - sv ^ 2)
  if den = 0 then .nan else .fin ((n * stv - st * sv) ^ 2 / den)

/-- Body of `get_trend_analysis` on the readings in the window (lines 212-236):
`{}` (here `none`) for fewer than 2 readings, otherwise classify with
`trend_strength = abs(slope) * timeframe / np.mean(values)` and threshold
`0.1`, where times are seconds offsets from the first reading. -/
def trendOf (timeframe : ℤ) (rs : List SensorReading) : Option TrendDict :=
  match rs with
  | r0 :: r1 :: rest =>
    let all := r0 :: r1 :: rest
    let times := all.map (fun r => ((r.timestamp.epochSecs - r0.timestamp.epochSecs : ℤ) : ℚ))
    let values := all.map (·.value)
    let slope := polyfitSlope times values
    let strength := fdiv (|slope| * (timeframe : ℚ)) (npMean values)
    let trend :=
      if strength.ltQ (1 / 10) then "stable"
      else if 0 < slope then "increasing" else "decreasing"
    some ⟨trend, strength, slope, corrSquared times values⟩
  | _ => none

/-- Method `RealTimeMonitor.get_trend_analysis(sensor_id, timeframe)` (lines 206-236):
`self.buffers[sensor_id]` (KeyError when absent), then `trendOf` over the
recent window. -/
def get_trend_analysis (now : ℤ) (st : MonitorState) (sensor_id : String)
    (timeframe : ℤ) : Except PyErr (Option TrendDict) :=
  match lookupBuffer st.buffers sensor_id with
  | none => .error .keyError
  | some buf => .ok (trendOf timeframe (buf.getRecent now timeframe))

/-- The dict `get_health_check` is written to return. -/
structure HealthInfo where
  status : String
  last_cleanup : String
  buffer_sizes : List (String × Nat)
  uptime : String
  deriving DecidableEq, Repr

/-- Method `RealTimeMonitor.get_health_check` (lines 252-262).  Its body reads
`self.last_cleanup` and `self.start_time`, but `RealTimeMonitor.__init__`
assigns neither attribute and no other method of the class does either, so
the very first attribute read raises `AttributeError` before any dict is
built. -/
def get_health_check (_st : MonitorState) : Except PyErr HealthInfo :=
  .error .attributeError

/-- State of `_monitor_loop` (lines 109-130) viewed as a transition system:
whether `stop()` has been called (`is_running`), whether the websocket
connection made by `start()` is still open, the frames the socket still has
to deliver, the readings already received, and the wall clock (seconds). -/
structure LoopState where
  is_running : Bool
  ws_open : Bool
  pending : List String
  received : List String
  clock : ℤ
  deriving DecidableEq, Repr

/-- One iteration of the `while self.is_running` body of `_monitor_loop`
(lines 111-130).  When the websocket is open and a frame is pending,
`recv` yields it (decryption/validation/processing of the frame payload is
elided — it touches neither the connection nor the clock).  When the
connection is closed, `recv` raises `ConnectionClosed`; the handler logs
"Connection lost. Attempting to reconnect...", sleeps 5 seconds and
`continue`s — it contains no call that opens a connection
(`websockets.connect` occurs only in `start`), so the state keeps the same
closed websocket.  When the loop is stopped nothing happens. -/
def monitorLoopStep (s : LoopState) : LoopState :=
  if s.is_running = false then s
  else if s.ws_open then
    match s.pending with
    | [] => s
    | f :: rest => { s with pending := rest, received := s.received ++ [f] }
  else
    { s with clock := s.clock + 5 }

/-! ## `src/data_management/secure_storage.py` -/

/-- Fernet ciphertext over a payload type: an authenticated token recording
the key it was produced with, or a corrupted blob.  (`metadata` payloads are
modelled by their `json.dumps` rendering; `value` payloads carry the rational
directly, since the source round-trips `float(str(value))`.) -/
inductive Ciphertext (α : Type) where
  | token (key : String) (plain : α)
  | corrupted
  deriving DecidableEq, Repr

/-- Operation `Fernet(key).encrypt(plain)`. -/
def fernetEncrypt (key : String) (plain : α) : Ciphertext α :=
  .token key plain

/-- Operation `Fernet(key).decrypt(c)`: authenticated decryption — the wrong key or a
corrupted blob raises `InvalidToken`. -/
def fernetDecrypt (key : String) : Ciphertext α → Except PyErr α
  | .token k p => if k = key then .ok p else .error .invalidToken
  | .corrupted => .error .invalidToken

/-- The `DataPoint` dataclass (secure_storage.py lines 18-25). -/
structure DataPoint where
  timestamp : Datetime
  sensor_id : String
  value : ℚ
  unit : String
  metadata : String
  checksum : String
  deriving DecidableEq, Repr

/-- The message of `SecureStorage._verify_checksum`:
`f"{data_point.timestamp}{data_point.sensor_id}{data_point.value}{data_point.unit}"`. -/
def DataPoint.message (dp : DataPoint) : String :=
  dp.timestamp.pyStr ++ dp.sensor_id ++ pyFloatStr dp.value ++ dp.unit

/-- Lexicographic order on char lists by codepoint: the SQLite BINARY
collation used by the TEXT comparisons (identical to byte order on the
ASCII isoformat timestamps involved). -/
def strLtList : List Char → List Char → Bool
  | [], [] => false
  | [], _ :: _ => true
  | _ :: _, [] => false
  | a :: as, b :: bs =>
    if a.toNat < b.toNat then true
    else if b.toNat < a.toNat then false
    else strLtList as bs

/-- String comparison of the SQL queries (`BETWEEN`, `ORDER BY` on the
timestamp TEXT column). -/
def strLt (a b : String) : Bool :=
  strLtList a.data b.data

namespace SecureStorage

/-- A row of the `sensor_data` table as selected by the queries:
`(timestamp, sensor_id, encrypted_value, unit, encrypted_metadata, checksum)`.
The `timestamp` column holds `data_point.timestamp.isoformat()`; that column string is `rowTimestampStr`, and `datetime.fromisoformat` recovers the
datetime. -/
structure Row where
  timestamp : Datetime
  sensor_id : String
  encrypted_value : Ciphertext ℚ
  unit : String
  encrypted_metadata : Ciphertext String
  checksum : String
  deriving DecidableEq, Repr

/-- The string stored in the `timestamp` column of a row. -/
def rowTimestampStr (row : Row) : String :=
  row.timestamp.isoStr

/-- The `SecureStorage.__init__` state (lines 27-39): the keys and the table
contents (in insertion order). -/
structure State where
  secret_key : String
  encryption_key : String
  rows : List Row
  deriving DecidableEq, Repr

/-- Method `SecureStorage._verify_checksum(data_point)` (lines 170-178), parametric
in the HMAC hex digest function. -/
def verifyChecksum (hm : String → String → String) (secret_key : String)
    (dp : DataPoint) : Bool :=
  hm secret_key dp.message == dp.checksum

/-- Method `SecureStorage.store_data_point(data_point)` (lines 82-118): reject
(return `False`, leave the table unchanged) when `_verify_checksum` fails;
otherwise encrypt `str(value)` and `json.dumps(metadata)` with the Fernet
key and insert
`(timestamp.isoformat(), sensor_id, encrypted_value, unit, encrypted_metadata, checksum)`,
returning `True`. -/
def storeDataPoint (hm : String → String → String) (st : State) (dp : DataPoint) :
    State × Bool :=
  if verifyChecksum hm st.secret_key dp then
    ({ st with rows := st.rows ++
        [{ timestamp := dp.timestamp,
           sensor_id := dp.sensor_id,
           encrypted_value := fernetEncrypt st.encryption_key dp.value,
           unit := dp.unit,
           encrypted_metadata := fernetEncrypt st.encryption_key dp.metadata,
           checksum := dp.checksum }] }, true)
  else (st, false)

/-- Stable insertion into a list sorted by the timestamp column string. -/
def insertByTs (row : Row) : List Row → List Row
  | [] => [row]
  | r :: rs =>
    if strLt (rowTimestampStr row) (rowTimestampStr r) then row :: r :: rs
    else r :: insertByTs row rs

/-- Query clause `ORDER BY timestamp ASC` over the timestamp column strings. -/
def sortByTs (rows : List Row) : List Row :=
  rows.foldr insertByTs []

/-- Method `SecureStorage._decrypt_data_point(row)` (lines 147-168): decrypt value
and metadata (raising on failure), parse the timestamp back with
`datetime.fromisoformat`, and rebuild the `DataPoint`. -/
def decryptDataPoint (st : State) (row : Row) : Except PyErr DataPoint := do
  let v ← fernetDecrypt st.encryption_key row.encrypted_value
  let m ← fernetDecrypt st.encryption_key row.encrypted_metadata
  return { timestamp := row.timestamp,
           sensor_id := row.sensor_id,
           value := v,
           unit := row.unit,
           metadata := m,
           checksum := row.checksum }

/-- The rows the `get_data_points` query selects:
`WHERE sensor_id = ? AND timestamp BETWEEN ? AND ? ORDER BY timestamp ASC`,
string comparisons over the isoformat column. -/
def selectRows (st : State) (sensor_id : String) (start_time end_time : Datetime) :
    List Row :=
  sortByTs (st.rows.filter (fun row =>
    row.sensor_id == sensor_id &&
    !(strLt (rowTimestampStr row) start_time.isoStr) &&
    !(strLt end_time.isoStr (rowTimestampStr row))))

/-- Method `SecureStorage.get_data_points(sensor_id, start_time, end_time)`
(lines 120-145): select and decrypt the matching rows; the enclosing
`except Exception` catches any decryption failure, logs it and returns `[]`
— the function never propagates an error. -/
def getDataPoints (st : State) (sensor_id : String) (start_time end_time : Datetime) :
    Except PyErr (List DataPoint) :=
  match (selectRows st sensor_id start_time end_time).mapM (decryptDataPoint st) with
  | .ok dps => .ok dps
  | .error _ => .ok []

/-- One step of the row loop of `verify_data_integrity` (lines 271-299):
decrypt the stored value (an exception here is caught by the enclosing
`except` which returns `False`), recompute
`hmac(secret, row[0] + row[1] + decrypted_value + row[3])` over the
**isoformat** timestamp column string, and stop with `False` at the first
mismatch (logging `"Data integrity violation found at {row[0]}"`). -/
def verifyRows (hm : String → String → String) (st : State) : List Row → Bool
  | [] => true
  | row :: rest =>
    match fernetDecrypt st.encryption_key row.encrypted_value with
    | .error _ => false
    | .ok v =>
      if hm st.secret_key
          (rowTimestampStr row ++ row.sensor_id ++ pyFloatStr v ++ row.unit)
          == row.checksum
      then verifyRows hm st rest
      else false

/-- Method `SecureStorage.verify_data_integrity()` (lines 271-299): scan all rows
`ORDER BY timestamp ASC`, recomputing each tag. -/
def verifyDataIntegrity (hm : String → String → String) (st : State) : Bool :=
  verifyRows hm st (sortByTs st.rows)

end SecureStorage

/-! ## Concrete instances -/

/-- Sample timestamp `datetime(2024, 1, 1, 12, 0, 0)`. -/
def sampleDt : Datetime :=
  ⟨"2024-01-01", "12:00:00", 0⟩

/-- A data point whose checksum is the valid inbound tag (the tag
`_verify_checksum` recomputes: HMAC over
`str(timestamp) + sensor_id + str(value) + unit`). -/
def dpStoreOk : DataPoint :=
  { timestamp := sampleDt, sensor_id := "s1", value := 1, unit := "C",
    metadata := "md",
    checksum := hmDemo "k" (sampleDt.pyStr ++ "s1" ++ pyFloatStr 1 ++ "C") }

/-- A freshly initialised storage state with an empty `sensor_data` table. -/
def emptyStorage : SecureStorage.State :=
  { secret_key := "k", encryption_key := "ek", rows := [] }

/-- A sensor reading carrying the checksum `SensorReading.validate`
recomputes: HMAC over `str(timestamp) + str(value) + unit + sensor_id`. -/
def readingA : SensorReading :=
  { timestamp := sampleDt, value := 1, unit := "C", sensor_id := "s7",
    checksum := hmDemo "k" (sampleDt.pyStr ++ pyFloatStr 1 ++ "C" ++ "s7"),
    confidence := 1, calibration_date := sampleDt }

/-- `readingA` with its value field changed and the checksum kept. -/
def readingA2 : SensorReading :=
  { readingA with value := 2 }

/-- A data point with the same timestamp, value, unit, sensor id and checksum
fields as `readingA`. -/
def dataPointA : DataPoint :=
  { timestamp := sampleDt, sensor_id := "s7", value := 1, unit := "C",
    metadata := "md",
    checksum := hmDemo "k" (sampleDt.pyStr ++ pyFloatStr 1 ++ "C" ++ "s7") }

/-- A reading with empty unit and sensor id, for which the two concatenation
orders coincide. -/
def readingE : SensorReading :=
  { timestamp := sampleDt, value := 3, unit := "", sensor_id := "",
    checksum := hmDemo "k2" (sampleDt.pyStr ++ pyFloatStr 3),
    confidence := 1, calibration_date := sampleDt }

/-- The data point with the same fields as `readingE`. -/
def dataPointE : DataPoint :=
  { timestamp := sampleDt, sensor_id := "", value := 3, unit := "",
    metadata := "md",
    checksum := hmDemo "k2" (sampleDt.pyStr ++ pyFloatStr 3) }

/-- A buffer at its cap of 2 readings. -/
def bufFull : RealTimeBuffer :=
  { buffer := [readingA, readingE], maxlen := 2, cleanup_interval := 3600,
    last_cleanup := 0 }

/-- A reading 8 days old (epoch 0, with now = 8 days). -/
def staleReading : SensorReading :=
  { timestamp := ⟨"2024-01-01", "00:00:00", 0⟩, value := 1, unit := "C",
    sensor_id := "s", checksum := "c", confidence := 1,
    calibration_date := sampleDt }

/-- A fresh reading at now = 8 days. -/
def freshReading : SensorReading :=
  { timestamp := ⟨"2024-01-09", "00:00:00", 8 * 86400⟩, value := 2, unit := "C",
    sensor_id := "s", checksum := "c2", confidence := 1,
    calibration_date := sampleDt }

/-- A buffer holding the stale reading, whose last cleanup lies
86 401 seconds (one day plus one second) in the past. -/
def staleBuffer : RealTimeBuffer :=
  { buffer := [staleReading], maxlen := 1000, cleanup_interval := 3600,
    last_cleanup := 8 * 86400 - 86401 }

/-- A monitor whose `buffers` dict is empty. -/
def emptyMonitor : MonitorState :=
  { encryption_key := "ek", secret_key := "k", buffers := [] }

/-- A buffer holding no readings. -/
def idleBuffer : RealTimeBuffer :=
  { buffer := [], maxlen := 1000, cleanup_interval := 3600, last_cleanup := 0 }

/-- A monitor with exactly one (empty) buffer, for sensor `"s"`. -/
def oneBufferMonitor : MonitorState :=
  { encryption_key := "ek", secret_key := "k", buffers := [("s", idleBuffer)] }

/-- A reading with value 0 at epoch second 0. -/
def zeroR0 : SensorReading :=
  { timestamp := ⟨"2024-01-01", "12:00:00", 0⟩, value := 0, unit := "C",
    sensor_id := "s", checksum := "c0", confidence := 1,
    calibration_date := sampleDt }

/-- A reading with value 0 at epoch second 10. -/
def zeroR10 : SensorReading :=
  { timestamp := ⟨"2024-01-01", "12:00:10", 10⟩, value := 0, unit := "C",
    sensor_id := "s", checksum := "c1", confidence := 1,
    calibration_date := sampleDt }

/-- A buffer holding the two zero-valued readings. -/
def zeroBuffer : RealTimeBuffer :=
  { buffer := [zeroR0, zeroR10], maxlen := 1000, cleanup_interval := 3600,
    last_cleanup := 0 }

/-- A monitor whose only sensor has the constant-zero window. -/
def zeroMonitor : MonitorState :=
  { encryption_key := "ek", secret_key := "k", buffers := [("s", zeroBuffer)] }

/-- A reading with value 5 at epoch second 0. -/
def fiveR0 : SensorReading :=
  { zeroR0 with value := 5 }

/-- A reading with value 5 at epoch second 10. -/
def fiveR10 : SensorReading :=
  { zeroR10 with value := 5 }

/-- A buffer holding the two constant-5 readings. -/
def fiveBuffer : RealTimeBuffer :=
  { buffer := [fiveR0, fiveR10], maxlen := 1000, cleanup_interval := 3600,
    last_cleanup := 0 }

/-- A monitor whose only sensor has the constant-5 window. -/
def fiveMonitor : MonitorState :=
  { encryption_key := "ek", secret_key := "k", buffers := [("s", fiveBuffer)] }

/-- The loop state right after a connection drop while streaming. -/
def droppedLoop : LoopState :=
  { is_running := true, ws_open := false, pending := [], received := [],
    clock := 0 }

/-- A stored row whose encrypted value blob has been corrupted. -/
def corruptRow : SecureStorage.Row :=
  { timestamp := sampleDt, sensor_id := "s1",
    encrypted_value := Ciphertext.corrupted, unit := "C",
    encrypted_metadata := Ciphertext.token "ek" "md", checksum := "c" }

/-- A storage state holding only the corrupted row. -/
def corruptStorage : SecureStorage.State :=
  { secret_key := "k", encryption_key := "ek", rows := [corruptRow] }

/-- Query start bound below the stored timestamp. -/
def lowDt : Datetime :=
  ⟨"2024-01-01", "00:00:00", 0⟩

/-- Query end bound above the stored timestamp. -/
def highDt : Datetime :=
  ⟨"2024-12-31", "23:59:59", 0⟩

/-! ## Helper lemmas and claims -/

/-- For a fixed key, `hmDemo` is injective in the message: the model of HMAC
collision resistance used by the concrete counterexamples. -/
theorem hmDemo_inj (key : String) : Function.Injective (hmDemo key) := by
  intro a b h
  have h2 : (key ++ "#").data ++ a.data = (key ++ "#").data ++ b.data := by
    have h3 := congrArg String.data h
    simpa [hmDemo, String.data_append, List.append_assoc] using h3
  have h4 := List.append_cancel_left h2
  cases a; cases b; exact congrArg String.mk (by simpa using h4)

/-- C1: the claim says a stored, accepted data point makes a subsequent
`verify_data_integrity` over the untouched store return true.  The code
violates this: `_verify_checksum` (used on ingest) renders the timestamp
with `f"{timestamp}"` (space separator), while `verify_data_integrity`
recomputes the tag over the stored `timestamp.isoformat()` column
(`"T"` separator), so with any collision-free HMAC the recomputed tag
differs from the stored one and the scan reports a violation on an
untouched store.  Evaluated here at a concrete accepted data point with the
collision-free `hmDemo` in place of HMAC-SHA256. -/
theorem C1_verify_integrity_false_on_untouched_store :
    (SecureStorage.storeDataPoint hmDemo emptyStorage dpStoreOk).2 = true ∧
    SecureStorage.verifyDataIntegrity hmDemo
      (SecureStorage.storeDataPoint hmDemo emptyStorage dpStoreOk).1 = false ∧
    sampleDt.pyStr ≠ sampleDt.isoStr :=
  ⟨by decide, by decide, by decide⟩

/-- C2 counterexample: the claim states `validate(secret)` is true iff the
checksum equals the HMAC of `timestamp‖sensor_id‖value‖unit`.  For
`readingA` (whose checksum is the tag the code actually checks, over
`timestamp‖value‖unit‖sensor_id`), `validate` returns true while the
claimed-order tag differs from the checksum, so the stated iff fails. -/
theorem C2_claim_order_counterexample :
    ((readingA.validate hmDemo "k").2 = true) ∧
    hmDemo "k" (readingA.timestamp.pyStr ++ readingA.sensor_id ++
      pyFloatStr readingA.value ++ readingA.unit) ≠ readingA.checksum :=
  ⟨by decide, by decide⟩

/-- C2 amended: `validate(secret)` returns true iff the supplied checksum
equals HMAC-SHA256 of `timestamp‖value‖unit‖sensor_id` (value first, sensor
id last); and — given HMAC collision-freeness (injectivity of the digest for
the fixed key) — any field change that alters the rendered message flips a
validating reading to non-validating. -/
theorem C2_validate_hmac_characterization :
    (∀ (hm : String → String → String) (key : String) (r : SensorReading),
      (r.validate hm key).2 = true ↔
        hm key (r.timestamp.pyStr ++ pyFloatStr r.value ++ r.unit ++ r.sensor_id)
          = r.checksum) ∧
    (∀ (hm : String → String → String) (key : String) (r r2 : SensorReading),
      Function.Injective (hm key) → (r.validate hm key).2 = true →
      r2.checksum = r.checksum → r2.message ≠ r.message →
      (r2.validate hm key).2 = false) := by
  constructor
  · intro hm key r
    simp [SensorReading.validate, SensorReading.message]
  · intro hm key r r2 hinj hr hcs hmsg
    have hr2 : hm key r.message = r.checksum := by
      simpa [SensorReading.validate] using hr
    rw [show (r2.validate hm key).2 = (hm key r2.message == r2.checksum) from rfl]
    refine beq_eq_false_iff_ne.mpr ?_
    intro h
    exact hmsg (hinj ((h.trans hcs).trans hr2.symm))

/-- C2 witness: the amended characterisation evaluated at `readingA` (valid)
and at `readingA2` (same checksum, changed value: no longer valid). -/
theorem C2_validate_hmac_characterization_witness :
    ((readingA.validate hmDemo "k").2 = true) ∧
    ((readingA2.validate hmDemo "k").2 = false) :=
  ⟨(C2_validate_hmac_characterization.1 hmDemo "k" readingA).mpr (by decide),
   C2_validate_hmac_characterization.2 hmDemo "k" readingA readingA2
     (hmDemo_inj "k") (by decide) (by decide) (by decide)⟩

/-- C3 counterexample: the claim states that for equal fields and the same
key, `SensorReading.validate` and `SecureStorage._verify_checksum` return
the same boolean.  `readingA` and `dataPointA` have identical timestamp,
value, unit, sensor id and checksum fields, yet with the collision-free
`hmDemo` the monitor validates (its message order is
`timestamp‖value‖unit‖sensor_id`) while the storage check fails (its order
is `timestamp‖sensor_id‖value‖unit`). -/
theorem C3_order_mismatch_counterexample :
    readingA.timestamp = dataPointA.timestamp ∧
    readingA.value = dataPointA.value ∧
    readingA.unit = dataPointA.unit ∧
    readingA.sensor_id = dataPointA.sensor_id ∧
    readingA.checksum = dataPointA.checksum ∧
    (readingA.validate hmDemo "k").2 = true ∧
    SecureStorage.verifyChecksum hmDemo "k" dataPointA = false := by
  decide

/-- C3 amended: both checks apply the same HMAC primitive to string-rendered
fields and compare with the stored checksum, but with different
concatenation orders — the monitor uses `timestamp‖value‖unit‖sensor_id`,
the storage uses `timestamp‖sensor_id‖value‖unit` — so for equal fields and
key they agree whenever the two concatenated messages coincide (and can
differ otherwise, per the counterexample). -/
theorem C3_same_scheme_different_field_order :
    ∀ (hm : String → String → String) (key : String) (r : SensorReading)
      (dp : DataPoint),
      r.timestamp = dp.timestamp → r.value = dp.value → r.unit = dp.unit →
      r.sensor_id = dp.sensor_id → r.checksum = dp.checksum →
      (((r.validate hm key).2 =
          (hm key (dp.timestamp.pyStr ++ pyFloatStr dp.value ++ dp.unit ++
            dp.sensor_id) == dp.checksum)) ∧
       (SecureStorage.verifyChecksum hm key dp =
          (hm key (dp.timestamp.pyStr ++ dp.sensor_id ++ pyFloatStr dp.value ++
            dp.unit) == dp.checksum)) ∧
       (dp.timestamp.pyStr ++ pyFloatStr dp.value ++ dp.unit ++ dp.sensor_id =
          dp.timestamp.pyStr ++ dp.sensor_id ++ pyFloatStr dp.value ++ dp.unit →
        (r.validate hm key).2 = SecureStorage.verifyChecksum hm key dp)) := by
  intro hm key r dp ht hv hu hs hc
  refine ⟨?_, ?_, ?_⟩
  · simp [SensorReading.validate, SensorReading.message, ht, hv, hu, hs, hc]
  · simp [SecureStorage.verifyChecksum, DataPoint.message]
  · intro heq
    simp [SensorReading.validate, SensorReading.message,
      SecureStorage.verifyChecksum, DataPoint.message, ht, hv, hu, hs, hc, heq]

/-- C3 witness: on fields for which the two concatenated messages coincide,
the two checks agree. -/
theorem C3_same_scheme_different_field_order_witness :
    (readingE.validate hmDemo "k2").2 =
      SecureStorage.verifyChecksum hmDemo "k2" dataPointE :=
  (C3_same_scheme_different_field_order hmDemo "k2" readingE dataPointE
    rfl rfl rfl rfl rfl).2.2 (by decide)

/-- Length of a deque append: bounded by the maxlen once the deque itself is. -/
theorem dequeAppend_length_le (m : Nat) (buf : List α) (x : α)
    (h : buf.length ≤ m) : (dequeAppend m buf x).length ≤ m := by
  unfold dequeAppend
  split
  · simpa using ‹buf.length + 1 ≤ m›
  · simp only [List.length_drop, List.length_append, List.length_cons,
      List.length_nil]
    omega

/-- `add` changes neither `maxlen` nor `cleanup_interval`. -/
theorem add_maxlen (now : ℤ) (b : RealTimeBuffer) (r : SensorReading) :
    (b.add now r).maxlen = b.maxlen := by
  unfold RealTimeBuffer.add RealTimeBuffer.cleanupIfNeeded
  split <;> rfl

/-- `add` keeps the buffer length within `maxlen`. -/
theorem add_length_le (now : ℤ) (b : RealTimeBuffer) (r : SensorReading)
    (h : b.buffer.length ≤ b.maxlen) : (b.add now r).buffer.length ≤ b.maxlen := by
  unfold RealTimeBuffer.add RealTimeBuffer.cleanupIfNeeded
  split
  · exact le_trans (List.length_filter_le _ _) (dequeAppend_length_le _ _ _ h)
  · exact dequeAppend_length_le _ _ _ h

/-- Folding a sequence of `add` events preserves both the bound and the cap. -/
theorem foldl_add_invariant (evs : List (ℤ × SensorReading)) :
    ∀ b : RealTimeBuffer, b.buffer.length ≤ b.maxlen →
      (evs.foldl (fun s e => s.add e.1 e.2) b).buffer.length ≤ b.maxlen ∧
      (evs.foldl (fun s e => s.add e.1 e.2) b).maxlen = b.maxlen := by
  induction evs with
  | nil => intro b h; exact ⟨h, rfl⟩
  | cons e rest ih =>
    intro b h
    have h1 : (b.add e.1 e.2).buffer.length ≤ (b.add e.1 e.2).maxlen := by
      rw [add_maxlen]; exact add_length_le e.1 b e.2 h
    have h2 := ih (b.add e.1 e.2) h1
    rw [add_maxlen] at h2
    exact ⟨h2.1, h2.2⟩

/-- C4: starting from any buffer state within its cap (in particular a fresh
one), any sequence of `add` calls — with cleanups interleaved by the guard
or not — keeps the number of held readings at or below `maxlen`; and when an
`add` happens at the cap, the oldest (leftmost) entry is evicted: the
resulting buffer is a sublist of `tail ++ [r]` (cleanup may only evict
more). -/
theorem C4_buffer_capacity_invariant :
    (∀ (b : RealTimeBuffer) (evs : List (ℤ × SensorReading)),
      b.buffer.length ≤ b.maxlen →
      (evs.foldl (fun s e => s.add e.1 e.2) b).buffer.length ≤ b.maxlen) ∧
    (∀ (now : ℤ) (b : RealTimeBuffer) (r : SensorReading),
      b.buffer.length = b.maxlen → 0 < b.maxlen →
      ((b.add now r).buffer).Sublist (b.buffer.tail ++ [r])) := by
  constructor
  · intro b evs h
    exact (foldl_add_invariant evs b h).1
  · intro now b r hfull hpos
    have hsub : (RealTimeBuffer.add now b r).buffer.Sublist
        (dequeAppend b.maxlen b.buffer r) := by
      unfold RealTimeBuffer.add RealTimeBuffer.cleanupIfNeeded
      split
      · exact List.filter_sublist _
      · exact List.Sublist.refl _
    have happ : dequeAppend b.maxlen b.buffer r = b.buffer.tail ++ [r] := by
      unfold dequeAppend
      rw [if_neg (by omega)]
      cases hb : b.buffer with
      | nil => rw [hb] at hfull; simp at hfull; omega
      | cons y ys =>
        rw [hb] at hfull
        simp only [List.length_cons] at hfull
        have hd : (y :: ys).length + 1 - b.maxlen = 1 := by
          simp only [List.length_cons]; omega
        rw [hd]
        simp
    rwa [happ] at hsub

/-- C4 witness: the invariant evaluated on a concrete full buffer and a
concrete sequence of adds. -/
theorem C4_buffer_capacity_invariant_witness :
    (([((5 : ℤ), readingA), (6, readingA2)].foldl
        (fun s e => s.add e.1 e.2) bufFull).buffer.length ≤ bufFull.maxlen) ∧
    ((bufFull.add 5 readingA2).buffer).Sublist
      (bufFull.buffer.tail ++ [readingA2]) :=
  ⟨C4_buffer_capacity_invariant.1 bufFull [(5, readingA), (6, readingA2)]
      (by decide),
   C4_buffer_capacity_invariant.2 5 bufFull readingA2 (by decide) (by decide)⟩

/-- C5: the claim says that whenever more than `cleanup_interval` (3600 s)
has elapsed since the last cleanup, `add` evicts every entry older than the
7-day horizon and resets the timer.  The code tests
`(now - last_cleanup).seconds > cleanup_interval`, and `timedelta.seconds`
is the seconds component modulo 86400 — so here, with 86 401 seconds
elapsed (more than the interval), the component is `1`, the guard fails,
the 8-day-old reading survives the `add` and the timer is not reset. -/
theorem C5_cleanup_skipped_after_day_elapsed :
    (8 * 86400 - staleBuffer.last_cleanup > staleBuffer.cleanup_interval) ∧
    (staleReading.timestamp.epochSecs < 8 * 86400 - 7 * 86400) ∧
    ((staleBuffer.add (8 * 86400) freshReading).buffer =
      [staleReading, freshReading]) ∧
    ((staleBuffer.add (8 * 86400) freshReading).last_cleanup =
      staleBuffer.last_cleanup) := by
  decide

/-- C6 counterexample: the claim says `get_statistics` never errors for any
`sensor_id`.  For a sensor with no buffer, `self.buffers[sensor_id]` raises
`KeyError` before `get_recent` is ever consulted. -/
theorem C6_unknown_sensor_keyerror :
    get_statistics 0 emptyMonitor "sensor1" 60 = Except.error PyErr.keyError :=
  rfl

/-- C6 amended: for every sensor id that has a buffer, `get_statistics`
returns a normal result — the empty dict when no readings fall in the
window, some statistics dict otherwise — and never an error. -/
theorem C6_statistics_no_error_when_buffer_exists :
    ∀ (now : ℤ) (st : MonitorState) (sid : String) (tf : ℤ)
      (buf : RealTimeBuffer),
      lookupBuffer st.buffers sid = some buf →
      ((buf.getRecent now tf = [] →
          get_statistics now st sid tf = Except.ok []) ∧
       ∃ d, get_statistics now st sid tf = Except.ok d) := by
  intro now st sid tf buf hbuf
  constructor
  · intro hempty
    unfold get_statistics
    rw [hbuf]
    simp [hempty]
  · unfold get_statistics
    rw [hbuf]
    cases h : (buf.getRecent now tf).isEmpty <;> simp [h]

/-- C6 witness: the amended claim evaluated at the one-buffer monitor with an
empty window. -/
theorem C6_statistics_no_error_when_buffer_exists_witness :
    get_statistics 0 oneBufferMonitor "s" 60 = Except.ok [] :=
  (C6_statistics_no_error_when_buffer_exists 0 oneBufferMonitor "s" 60
    idleBuffer rfl).1 rfl

/-- Sum of a list after multiplying each element on the right. -/
theorem sum_map_mul_right_q (l : List ℚ) (c : ℚ) :
    (l.map (fun x => x * c)).sum = l.sum * c := by
  induction l with
  | nil => simp
  | cons x xs ih => simp [ih]; ring

/-- Zipping with a constant list and multiplying componentwise is scaling. -/
theorem zip_replicate_mul (ts : List ℚ) (c : ℚ) :
    ((ts.zip (List.replicate ts.length c)).map (fun p => p.1 * p.2)) =
      ts.map (fun t => t * c) := by
  induction ts with
  | nil => rfl
  | cons t ts ih => simp only [List.length_cons, List.replicate_succ,
      List.zip_cons_cons, List.map_cons, ih]

/-- The least-squares slope of a constant series is zero (also in the
degenerate all-times-equal case, where the minimum-norm solution is taken). -/
theorem polyfitSlope_const (times : List ℚ) (n : ℕ) (c : ℚ)
    (hn : n = times.length) :
    polyfitSlope times (List.replicate n c) = 0 := by
  subst hn
  unfold polyfitSlope
  rw [zip_replicate_mul, sum_map_mul_right_q]
  simp only [List.sum_replicate, List.length_replicate, nsmul_eq_mul]
  split
  · rfl
  · rw [show ((times.length : ℚ) * (times.sum * c) -
      times.sum * ((times.length : ℚ) * c)) = 0 by ring]
    exact zero_div _

/-- The squared correlation of a constant series is NaN (zero variance). -/
theorem corrSquared_const (times : List ℚ) (n : ℕ) (c : ℚ)
    (hn : n = times.length) :
    corrSquared times (List.replicate n c) = FVal.nan := by
  subst hn
  unfold corrSquared
  simp only [List.sum_replicate, List.length_replicate, nsmul_eq_mul,
    List.map_replicate]
  have h0 : ((times.length : ℚ) * ((times.length : ℚ) * c ^ 2) -
      ((times.length : ℚ) * c) ^ 2 : ℚ) = 0 := by ring
  rw [h0, mul_zero, if_pos rfl]

/-- A list whose members all have value `c` maps to a constant value list. -/
theorem map_value_replicate (rs : List SensorReading) (c : ℚ)
    (h : ∀ r ∈ rs, r.value = c) :
    rs.map (·.value) = List.replicate rs.length c := by
  induction rs with
  | nil => rfl
  | cons r rest ih =>
    simp only [List.map_cons, List.length_cons, List.replicate_succ]
    rw [h r (List.mem_cons_self r rest),
      ih (fun x hx => h x (List.mem_cons_of_mem r hx))]

/-- Mean of a constant nonempty list. -/
theorem npMean_replicate (n : ℕ) (c : ℚ) (h : n ≠ 0) :
    npMean (List.replicate n c) = c := by
  unfold npMean
  simp only [List.sum_replicate, List.length_replicate, nsmul_eq_mul]
  rw [mul_comm, mul_div_assoc, div_self (by exact_mod_cast h), mul_one]

/-- On a window of at least two readings of constant nonzero value, the trend
body computes slope 0, strength 0 and classification `"stable"` (and a NaN
squared correlation, the variance of the values being zero). -/
theorem trendOf_const (tf : ℤ) (rs : List SensorReading) (c : ℚ)
    (h2 : 2 ≤ rs.length) (hc : ∀ r ∈ rs, r.value = c) (hcne : c ≠ 0) :
    trendOf tf rs = some ⟨"stable", FVal.fin 0, 0, FVal.nan⟩ := by
  cases rs with
  | nil => simp at h2
  | cons r0 rs1 =>
    cases rs1 with
    | nil => simp at h2
    | cons r1 rest =>
      have hv : (r0 :: r1 :: rest).map (·.value) =
          List.replicate (r0 :: r1 :: rest).length c :=
        map_value_replicate _ c hc
      have hlen : (r0 :: r1 :: rest).length =
          ((r0 :: r1 :: rest).map (fun r =>
            ((r.timestamp.epochSecs - r0.timestamp.epochSecs : ℤ) : ℚ))).length := by
        simp
      simp only [trendOf, hv, hlen]
      rw [polyfitSlope_const _ _ _ rfl, corrSquared_const _ _ _ rfl]
      rw [npMean_replicate _ _ (by simp)]
      simp only [abs_zero, zero_mul, fdiv, hcne, zero_div]
      simp [hcne, FVal.ltQ]

/-- C7 counterexample: the claim says every constant series of length ≥ 2 is
classified `"stable"`.  For the constant **zero** series the mean is 0, so
`trend_strength = abs(slope) * timeframe / mean` is the float `0.0/0.0`,
i.e. NaN; `NaN < 0.1` is false and `slope > 0` is false, so the code
returns `"decreasing"`. -/
theorem C7_constant_zero_counterexample :
    (zeroBuffer.getRecent 10 60 = [zeroR0, zeroR10]) ∧
    (zeroR0.value = zeroR10.value) ∧
    (get_trend_analysis 10 zeroMonitor "s" 60 =
      Except.ok (some ⟨"decreasing", FVal.nan, 0, FVal.nan⟩)) := by
  refine ⟨by decide, by decide, ?_⟩
  show Except.ok (trendOf 60 (zeroBuffer.getRecent 10 60)) = _
  rw [show zeroBuffer.getRecent 10 60 = [zeroR0, zeroR10] by decide]
  simp only [trendOf, zeroR0, zeroR10, polyfitSlope, corrSquared, npMean, fdiv,
    FVal.ltQ]
  norm_num

/-- C7 amended: for every buffer window of at least 2 readings whose values
are all equal **and nonzero**, `get_trend_analysis` classifies the trend as
`"stable"` (with `trend_strength = |slope| * timeframe / mean(values) = 0`,
below the 0.1 threshold); for the constant zero series the strength is NaN
and the code classifies `"decreasing"` instead. -/
theorem C7_constant_nonzero_stable :
    ∀ (now : ℤ) (st : MonitorState) (sid : String) (tf : ℤ)
      (buf : RealTimeBuffer) (c : ℚ),
      lookupBuffer st.buffers sid = some buf →
      2 ≤ (buf.getRecent now tf).length →
      (∀ r ∈ buf.getRecent now tf, r.value = c) →
      c ≠ 0 →
      get_trend_analysis now st sid tf =
        Except.ok (some ⟨"stable", FVal.fin 0, 0, FVal.nan⟩) := by
  intro now st sid tf buf c hbuf h2 hc hcne
  unfold get_trend_analysis
  rw [hbuf]
  show Except.ok (trendOf tf (buf.getRecent now tf)) = _
  rw [trendOf_const tf _ c h2 hc hcne]

/-- C7 witness: the amended claim evaluated on the constant-5 window. -/
theorem C7_constant_nonzero_stable_witness :
    get_trend_analysis 10 fiveMonitor "s" 60 =
      Except.ok (some ⟨"stable", FVal.fin 0, 0, FVal.nan⟩) :=
  C7_constant_nonzero_stable 10 fiveMonitor "s" 60 fiveBuffer 5
    rfl (by decide) (by decide) (by decide)

/-- C8: the claim says `get_health_check` returns the status dictionary for
every monitor state and does not fail.  The code reads `self.last_cleanup`
and `self.start_time`, but `RealTimeMonitor.__init__` assigns neither
attribute and no method of the class ever does (`last_cleanup` exists only
on `RealTimeBuffer`), so every call raises `AttributeError` instead of
returning a dict. -/
theorem C8_health_check_attribute_error :
    ∀ st : MonitorState, get_health_check st = Except.error PyErr.attributeError :=
  fun _ => rfl

/-- On a running state with a closed websocket, one loop iteration only
advances the clock by the 5-second backoff sleep: the `ConnectionClosed`
handler contains no reconnect. -/
theorem monitorLoopStep_closed (s : LoopState) (hrun : s.is_running = true)
    (hws : s.ws_open = false) :
    monitorLoopStep s = { s with clock := s.clock + 5 } := by
  unfold monitorLoopStep
  simp [hrun, hws]

/-- C9: the claim says that after a connection loss the loop waits the 5 s
backoff, re-establishes the connection and resumes receiving frames.  The
code violates this: `websockets.connect` occurs only in `start`, and the
`ConnectionClosed` handler of `_monitor_loop` merely logs, sleeps 5 s and
`continue`s with the same closed websocket — so from any running state with
a closed connection, after any number `n` of loop iterations the connection
is still closed, no frame has been received, and the only effect is `n`
backoff sleeps. -/
theorem C9_loop_never_reconnects :
    ∀ (s : LoopState) (n : ℕ),
      s.is_running = true → s.ws_open = false →
      ((monitorLoopStep^[n] s).is_running = true ∧
       (monitorLoopStep^[n] s).ws_open = false ∧
       (monitorLoopStep^[n] s).received = s.received ∧
       (monitorLoopStep^[n] s).clock = s.clock + 5 * n) := by
  intro s n hrun hws
  induction n with
  | zero => exact ⟨hrun, hws, rfl, by simp⟩
  | succ k ih =>
    rw [Function.iterate_succ_apply']
    rw [monitorLoopStep_closed _ ih.1 ih.2.1]
    refine ⟨ih.1, ih.2.1, ih.2.2.1, ?_⟩
    rw [ih.2.2.2]
    push_cast
    ring

/-- C9 witness: the no-reconnection theorem evaluated three iterations after
a concrete connection drop. -/
theorem C9_loop_never_reconnects_witness :
    (monitorLoopStep^[3] droppedLoop).is_running = true ∧
    (monitorLoopStep^[3] droppedLoop).ws_open = false ∧
    (monitorLoopStep^[3] droppedLoop).received = droppedLoop.received ∧
    (monitorLoopStep^[3] droppedLoop).clock = droppedLoop.clock + 5 * 3 :=
  C9_loop_never_reconnects droppedLoop 3 rfl rfl

/-- C10 counterexample: the claim says a decryption failure on a matching
record is propagated to the caller as an error.  Here decryption of the
matching corrupted row fails, yet `get_data_points` returns the normal
value `[]` (the enclosing `except Exception` logs and returns an empty
list), indistinguishable from a sensor with no data. -/
theorem C10_decrypt_failure_swallowed :
    (SecureStorage.decryptDataPoint corruptStorage corruptRow =
      Except.error PyErr.invalidToken) ∧
    (corruptRow ∈ SecureStorage.selectRows corruptStorage "s1" lowDt highDt) ∧
    (SecureStorage.getDataPoints corruptStorage "s1" lowDt highDt =
      Except.ok []) :=
  ⟨rfl, by decide, rfl⟩

/-- C10 amended: when decryption of a matching stored record fails,
`get_data_points` catches the exception, logs it and returns the empty
list; it never propagates an error to the caller. -/
theorem C10_get_data_points_never_errors :
    ∀ (st : SecureStorage.State) (sid : String) (a b : Datetime),
      ((∃ e, (SecureStorage.selectRows st sid a b).mapM
          (SecureStorage.decryptDataPoint st) = Except.error e) →
        SecureStorage.getDataPoints st sid a b = Except.ok []) ∧
      (∃ l, SecureStorage.getDataPoints st sid a b = Except.ok l) := by
  intro st sid a b
  constructor
  · rintro ⟨e, he⟩
    unfold SecureStorage.getDataPoints
    rw [he]
  · unfold SecureStorage.getDataPoints
    cases h : (SecureStorage.selectRows st sid a b).mapM
        (SecureStorage.decryptDataPoint st) with
    | ok dps => exact ⟨dps, rfl⟩
    | error e => exact ⟨[], rfl⟩

/-- C10 witness: the amended claim evaluated at the corrupted store. -/
theorem C10_get_data_points_never_errors_witness :
    SecureStorage.getDataPoints corruptStorage "s1" lowDt highDt =
      Except.ok [] :=
  (C10_get_data_points_never_errors corruptStorage "s1" lowDt highDt).1
    ⟨PyErr.invalidToken, rfl⟩

end FarmFit
